import Mathlib

/-!
Shallow embedding of `src/app/main.py` (Streamlit solar-farm dashboard).

The script loads a CSV into a pandas dataframe, reports shape/columns and
missing values, optionally forward-fills or drops rows, reports dtypes,
coerces object columns with `pd.to_numeric(errors='coerce')` (falling back
to `astype(str)` on `ValueError`), and renders four chart widgets.

A dataframe is modelled row-major: a header of column names plus a list of
rows of cells.  A cell is missing (`NaN`), a number (exact rational, the
idealisation of the float column values), or a string (object columns).
A column has object dtype exactly when it contains a string cell, which is
what `pd.read_csv` produces (a column that fails numeric inference is read
as strings; otherwise it is numeric, with blanks as `NaN`).

Streamlit rendering is modelled as the list of UI elements the script
emits (`Out`); `st.multiselect` raises `StreamlitAPIException` when a
default value is not among the options, modelled by `Except`.
-/

set_option autoImplicit false

namespace SolarFarm

/-- A dataframe cell: missing (`NaN`), numeric, or string. -/
inductive Cell where
  | na : Cell
  | num (x : ℚ) : Cell
  | str (s : String) : Cell
  deriving DecidableEq, Repr

/-- `pd.isnull` on one cell. -/
def Cell.isNA : Cell → Bool
  | .na => true
  | _ => false

/-- Whether the cell is a string value. -/
def Cell.isStr : Cell → Bool
  | .str _ => true
  | _ => false

/-- The in-memory table: column names plus rows of cells (row-major). -/
structure DataFrame where
  header : List String
  rows : List (List Cell)
  deriving DecidableEq, Repr

/-- Number of columns (`data.shape[1]`). -/
def DataFrame.width (df : DataFrame) : Nat := df.header.length

/-- Number of rows (`data.shape[0]`). -/
def DataFrame.nrows (df : DataFrame) : Nat := df.rows.length

/-- Well-formedness: every row has exactly one cell per column.  Holds for
every dataframe produced by `pd.read_csv`. -/
def DataFrame.wfB (df : DataFrame) : Bool :=
  df.rows.all (fun r => r.length == df.header.length)

/-- The cells of column `j`, top to bottom (`data.iloc[:, j]`). -/
def DataFrame.colCells (df : DataFrame) (j : Nat) : List Cell :=
  df.rows.map (fun r => r.getD j Cell.na)

/-- The cell at row `i`, column `j`. -/
def DataFrame.cell (df : DataFrame) (i j : Nat) : Cell :=
  (df.rows.getD i []).getD j Cell.na

/-- `data[name]`: the cells of the column called `name` (first occurrence,
as with unique labels from `read_csv`). -/
def DataFrame.colByName (df : DataFrame) (n : String) : List Cell :=
  df.colCells (df.header.indexOf n)

/-- A column has pandas `object` dtype iff it holds a string cell. -/
def objectCol (cs : List Cell) : Bool := cs.any Cell.isStr

/-- Number of missing cells in a list (`Series.isnull().sum()`). -/
def countNA (cs : List Cell) : Nat := cs.countP (fun c => c.isNA)

/-- `data.isnull().sum()`: per-column missing counts, keyed by name. -/
def DataFrame.missingSeries (df : DataFrame) : List (String × Nat) :=
  df.header.enum.map (fun p => (p.2, countNA (df.colCells p.1)))

/-- `missing_values[missing_values > 0]`: the per-column report shown to
the user (line 37). -/
def DataFrame.missingReport (df : DataFrame) : List (String × Nat) :=
  df.missingSeries.filter (fun p => 0 < p.2)

/-- `missing_values.sum()`: total missing cells (the gate on line 35). -/
def DataFrame.missingTotal (df : DataFrame) : Nat :=
  (df.missingSeries.map Prod.snd).sum

/-- Whether some cell of some row is missing. -/
def DataFrame.hasMissing (df : DataFrame) : Bool :=
  df.rows.any (fun r => r.any Cell.isNA)

/-- Whether a row contains a missing cell. -/
def rowHasNA (r : List Cell) : Bool := r.any Cell.isNA

/-- `data.dropna()` (line 49): drop every row containing a missing value. -/
def DataFrame.dropna (df : DataFrame) : DataFrame :=
  ⟨df.header, df.rows.filter (fun r => !rowHasNA r)⟩

/-- One row of `ffill`: each missing cell takes the carried value for its
column, each present cell is kept. -/
def ffillStep (acc r : List Cell) : List Cell :=
  List.zipWith (fun a c => if c.isNA then a else c) acc r

/-- `ffill` down the rows, carrying the last filled row per column. -/
def ffillRows (acc : List Cell) : List (List Cell) → List (List Cell)
  | [] => []
  | r :: rs => ffillStep acc r :: ffillRows (ffillStep acc r) rs

/-- `data.ffill()` (line 46): propagate the last valid observation down
each column; cells with no prior valid observation stay missing. -/
def DataFrame.ffill (df : DataFrame) : DataFrame :=
  ⟨df.header, ffillRows (List.replicate df.header.length Cell.na) df.rows⟩

/-- Value of a digit string in base 10. -/
def digitsVal (cs : List Char) : Nat :=
  cs.foldl (fun a c => 10 * a + (c.toNat - 48)) 0

/-- Parse a non-empty all-digit string. -/
def parseDigits (cs : List Char) : Option Nat :=
  if cs ≠ [] ∧ cs.all Char.isDigit then some (digitsVal cs) else none

/-- Parse an unsigned decimal numeral: digits with at most one point,
at least one digit overall (`"7"`, `"3.5"`, `"1."`, `".25"`). -/
def parseUnsigned (cs : List Char) : Option ℚ :=
  let ip := cs.takeWhile (fun c => c ≠ '.')
  match cs.dropWhile (fun c => c ≠ '.') with
  | [] => (parseDigits ip).map (fun n => (n : ℚ))
  | _ :: fp =>
    if ip.all Char.isDigit ∧ fp.all Char.isDigit ∧ (ip ≠ [] ∨ fp ≠ []) ∧
        fp.all (fun c => c ≠ '.') then
      some ((digitsVal ip : ℚ) + (digitsVal fp : ℚ) / (10 : ℚ) ^ fp.length)
    else none

/-- Whitespace stripped around numeric entries. -/
def isSpaceChar (c : Char) : Bool :=
  c = ' ' || c = '\t' || c = '\n' || c = '\r'

/-- Strip surrounding whitespace from a character list. -/
def trimChars (cs : List Char) : List Char :=
  ((cs.dropWhile isSpaceChar).reverse.dropWhile isSpaceChar).reverse

/-- The numeric parse `pd.to_numeric` applies to one string entry:
optional surrounding whitespace and sign, then a decimal numeral.
`none` models an unparseable entry. -/
def parseNumStr (s : String) : Option ℚ :=
  match trimChars s.toList with
  | '-' :: cs => (parseUnsigned cs).map (fun q => -q)
  | '+' :: cs => parseUnsigned cs
  | cs => parseUnsigned cs

/-- Whether `pd.to_numeric` can parse this cell (missing and numeric cells
always pass through). -/
def parseableCell : Cell → Bool
  | .na => true
  | .num _ => true
  | .str s => (parseNumStr s).isSome

/-- What `pd.to_numeric(errors='coerce')` does to one cell: numbers and
`NaN` pass through, parseable strings become numbers, unparseable strings
become `NaN`. -/
def coerceCell : Cell → Cell
  | .na => .na
  | .num x => .num x
  | .str s =>
    match parseNumStr s with
    | some q => .num q
    | none => .na

/-- `pd.to_numeric(column, errors=...)`.  With `errorsCoerce = true`
(`errors='coerce'`, line 62) unparseable entries are set to `NaN`; with
`errorsCoerce = false` (`errors='raise'`, the default) an unparseable
entry raises `ValueError`, modelled by the error case. -/
def toNumeric (errorsCoerce : Bool) : List Cell → Except Unit (List Cell)
  | [] => .ok []
  | c :: cs =>
    match c with
    | .str s =>
      match parseNumStr s with
      | some q => (toNumeric errorsCoerce cs).map (fun l => Cell.num q :: l)
      | none =>
        if errorsCoerce then (toNumeric errorsCoerce cs).map (fun l => Cell.na :: l)
        else .error ()
    | c => (toNumeric errorsCoerce cs).map (fun l => c :: l)

/-- `Series.astype(str)` on one cell (the `except ValueError` fallback,
line 65): every value is rendered as a string. -/
def astypeStrCell : Cell → Cell
  | .na => .str "nan"
  | .num x => .str (toString x)
  | .str s => .str s

/-- The body of the coercion loop (lines 61-65) for one column:
`try: pd.to_numeric(col, errors='coerce') except ValueError: col.astype(str)`. -/
def coerceColumnCells (cs : List Cell) : List Cell :=
  match toNumeric true cs with
  | .ok cs2 => cs2
  | .error _ => cs.map astypeStrCell

/-- The coercion loop (lines 59-65): every column that has object dtype
when the loop starts is replaced by the try/except result; the other
columns are left as they are.  (The column updates are independent, so the
sequential loop equals this per-column form.) -/
def DataFrame.coerceObjects (df : DataFrame) : DataFrame :=
  let newCols : List (List Cell) :=
    (List.range df.header.length).map (fun j =>
      let cs := df.colCells j
      if objectCol cs then coerceColumnCells cs else cs)
  ⟨df.header,
   (List.range df.rows.length).map (fun i =>
     newCols.map (fun cs => cs.getD i Cell.na))⟩

/-- `data.dtypes` as displayed (line 56): per column, whether its dtype is
`object` (`true`) or numeric (`false`). -/
def DataFrame.dtypes (df : DataFrame) : List (String × Bool) :=
  df.header.enum.map (fun p => (p.2, objectCol (df.colCells p.1)))

/-- `data.select_dtypes(include='number').columns.tolist()` (line 82):
names of the columns whose dtype is numeric. -/
def DataFrame.numericCols (df : DataFrame) : List String :=
  (df.header.enum.filter (fun p => !objectCol (df.colCells p.1))).map Prod.snd

/-- The Streamlit exception the script can raise. -/
inductive SErr where
  | multiselectDefault : SErr
  deriving DecidableEq, Repr

instance exceptDecEq {ε α : Type} [DecidableEq ε] [DecidableEq α] :
    DecidableEq (Except ε α)
  | .error e, .error f =>
    if h : e = f then isTrue (by rw [h])
    else isFalse (by intro hh; cases hh; exact h rfl)
  | .error _, .ok _ => isFalse (by intro hh; cases hh)
  | .ok _, .error _ => isFalse (by intro hh; cases hh)
  | .ok a, .ok b =>
    if h : a = b then isTrue (by rw [h])
    else isFalse (by intro hh; cases hh; exact h rfl)

/-- `st.multiselect(options, default=deflt)`: raises
`StreamlitAPIException` when some default is not among the options;
otherwise the user's selection, always drawn from the options. -/
def multiselect (options deflt chosen : List String) : Except SErr (List String) :=
  if deflt.all (fun d => options.contains d) then
    .ok (chosen.filter (fun c => options.contains c))
  else
    .error .multiselectDefault

/-- One UI element emitted by the script, in emission order. -/
inductive Out where
  | header (s : String) : Out
  | subheader (s : String) : Out
  | writeText (s : String) : Out
  | writeHead (rows : List (List Cell)) : Out
  | writeShape (r c : Nat) : Out
  | writeCols (cs : List String) : Out
  | writeMissing (report : List (String × Nat)) : Out
  | radioShown : Out
  | success (s : String) : Out
  | writeDtypes (d : List (String × Bool)) : Out
  | warning (s : String) : Out
  | lineChart (cols : List String) : Out
  | sliderShown : Out
  | histogramChart (cells : List Cell) (bins : Nat) : Out
  | heatmap (cols : List String) : Out
  | windScatter (pts : List (Cell × Cell)) : Out
  deriving DecidableEq, Repr

/-- The missing-value handling chosen on the radio control (line 40). -/
inductive Handling where
  | noAction : Handling
  | forwardFill : Handling
  | dropRows : Handling
  deriving DecidableEq, Repr

/-- The state of the interactive controls for one script run. -/
structure UI where
  handling : Handling
  showCleaned : Bool
  lineSel : List String
  corrSel : List String
  bins : Nat
  deriving DecidableEq, Repr

/-- Applying the chosen strategy (lines 45-50). -/
def applyHandling : Handling → DataFrame → DataFrame
  | .noAction, df => df
  | .forwardFill, df => df.ffill
  | .dropRows, df => df.dropna

/-- Lines 24-33: raw preview, shape, column list, quality-check header. -/
def overviewOuts (df : DataFrame) : List Out :=
  [Out.subheader "Raw Data Preview",
   Out.writeHead (df.rows.take 5),
   Out.subheader "Dataset Overview",
   Out.writeShape df.rows.length df.header.length,
   Out.writeCols df.header,
   Out.subheader "Data Quality Check"]

/-- Lines 34-52: the missing-value block.  The report, radio control and
success message appear only when `missing_values.sum() > 0`; otherwise the
no-missing message is written. -/
def missingOuts (df : DataFrame) (ui : UI) : List Out :=
  if 0 < df.missingTotal then
    [Out.writeText "Missing values in each column:",
     Out.writeMissing df.missingReport,
     Out.radioShown] ++
    (match ui.handling with
     | .noAction => []
     | .forwardFill => [Out.success "Missing values filled using forward fill!"]
     | .dropRows => [Out.success "Rows with missing values have been dropped!"])
  else
    [Out.writeText "No missing values detected!"]

/-- The dataframe after the missing-value block: the chosen strategy is
applied only when the radio control was shown. -/
def handledDf (df : DataFrame) (ui : UI) : DataFrame :=
  if 0 < df.missingTotal then applyHandling ui.handling df else df

/-- Lines 54-56: the dtype report. -/
def dtypeOuts (df : DataFrame) : List Out :=
  [Out.subheader "Column Data Types", Out.writeDtypes df.dtypes]

/-- Lines 68-72: optional cleaned-data preview. -/
def previewOuts (df : DataFrame) (ui : UI) : List Out :=
  if ui.showCleaned then
    [Out.writeText "### Cleaned Data Preview", Out.writeHead (df.rows.take 5)]
  else
    []

/-- The cleaning section (lines 19-72): returns the dataframe handed to
the EDA section together with the emitted elements. -/
def cleaningSection (df0 : DataFrame) (ui : UI) : DataFrame × List Out :=
  let df1 := handledDf df0 ui
  let df2 := df1.coerceObjects
  (df2, overviewOuts df0 ++ missingOuts df0 ui ++ dtypeOuts df1 ++ previewOuts df2 ui)

/-- `st.slider(min_value=5, max_value=50, value=20)` (line 94): the
returned bin count always lies between the bounds. -/
def clampBins (b : Nat) : Nat := min 50 (max 5 b)

/-- Lines 92-99: the GHI histogram, guarded by column presence. -/
def histSection (df : DataFrame) (bins : Nat) : List Out :=
  if "GHI" ∈ df.header then
    [Out.subheader "Histogram for Global Horizontal Irradiance (GHI)",
     Out.sliderShown,
     Out.histogramChart (df.colByName "GHI") (clampBins bins)]
  else
    [Out.warning "GHI column is missing in the dataset!"]

/-- Lines 114-123: the polar wind scatter, guarded by column presence.
The scatter receives one (direction, speed) pair per row; plotting maps
the direction through `np.deg2rad`. -/
def windSection (df : DataFrame) : List Out :=
  if "WD" ∈ df.header ∧ "WS" ∈ df.header then
    [Out.subheader "Wind Analysis",
     Out.windScatter (List.zip (df.colByName "WD") (df.colByName "WS"))]
  else
    [Out.warning "Wind direction (WD) or speed (WS) columns are missing!"]

/-- Lines 86-89: the line chart on the selected columns, or a warning when
the selection is empty. -/
def lineChartOuts (sel : List String) : List Out :=
  if sel ≠ [] then [Out.lineChart sel]
  else [Out.warning "Please select at least one column for the line chart."]

/-- Lines 106-112: the correlation heatmap on the selected columns, or a
warning when the selection is empty. -/
def corrOuts (csel : List String) : List Out :=
  if csel ≠ [] then [Out.heatmap csel]
  else [Out.warning "Please select at least one column for correlation analysis."]

/-- The EDA section (lines 77-123).  The line-chart multiselect has the
hardcoded default `["GHI", "DNI", "DHI"]`; the correlation multiselect
defaults to all numeric columns. -/
def edaSection (df : DataFrame) (ui : UI) : Except SErr (List Out) :=
  match multiselect df.numericCols ["GHI", "DNI", "DHI"] ui.lineSel with
  | .error e => .error e
  | .ok sel =>
    match multiselect df.numericCols df.numericCols ui.corrSel with
    | .error e => .error e
    | .ok csel =>
      .ok ([Out.header "Exploratory Data Analysis (EDA)",
            Out.subheader "Solar Radiation Trends"] ++
           lineChartOuts sel ++
           histSection df ui.bins ++
           [Out.subheader "Correlation Analysis"] ++
           corrOuts csel ++
           windSection df)

/-- The EDA section's elements, `[]` when it raised. -/
def edaOutsOf (df : DataFrame) (ui : UI) : List Out :=
  match edaSection df ui with
  | .ok l => l
  | .error _ => []

/-- One full script run on an uploaded dataframe: the cleaning section
followed by the EDA section; an uncaught Streamlit exception aborts the
run. -/
def runApp (df0 : DataFrame) (ui : UI) : Except SErr (List Out) :=
  let (df2, couts) := cleaningSection df0 ui
  match edaSection df2 ui with
  | .error e => .error e
  | .ok eouts => .ok (Out.header "Data Understanding and Cleaning" :: (couts ++ eouts))

/-- `np.deg2rad`: degrees to radians, the angle actually plotted for a
numeric wind-direction value. -/
noncomputable def deg2rad (x : ℚ) : ℝ := (x : ℝ) * Real.pi / 180

/-- The columns a rendered chart element indexes in the dataframe. -/
def refCols : Out → List String
  | .lineChart cs => cs
  | .histogramChart _ _ => ["GHI"]
  | .heatmap cs => cs
  | .windScatter _ => ["WD", "WS"]
  | _ => []

/-- The filled value `ffill` promises at row `i` of a column: the cell
itself when present, otherwise the most recent preceding non-missing
value, or `NaN` when there is none. -/
def ffillSpec (cs : List Cell) (i : Nat) : Cell :=
  if (cs.getD i Cell.na).isNA then
    (((cs.take i).filter (fun c => !c.isNA)).getLast?).getD Cell.na
  else
    cs.getD i Cell.na

/-- Filling one column downward with carried value `a`: the column view of
`ffillRows`. -/
def ffillColAux (a : Cell) : List Cell → List Cell
  | [] => []
  | c :: cs => (if c.isNA then a else c) :: ffillColAux (if c.isNA then a else c) cs

/-- A clean upload without a `GHI` column. -/
def dfNoGHI : DataFrame :=
  ⟨["A", "WD", "WS"], [[Cell.num 1, Cell.num 90, Cell.num 3]]⟩

/-- Default control state: no handling chosen, nothing selected. -/
def uiPlain : UI := ⟨Handling.noAction, false, [], [], 20⟩

/-- A one-column upload whose object column holds an unparseable entry. -/
def dfObj : DataFrame := ⟨["A"], [[Cell.str "abc"]]⟩

/-- A column starting with a missing value. -/
def dfLead : DataFrame := ⟨["A"], [[Cell.na], [Cell.num 1], [Cell.na]]⟩

/-- An upload with a missing numeric cell and an object column holding an
unparseable entry in the row that survives `dropna`. -/
def dfMix : DataFrame :=
  ⟨["A", "B"], [[Cell.num 1, Cell.str "abc"], [Cell.na, Cell.str "x"]]⟩

/-- A clean upload carrying all the expected columns. -/
def dfFull : DataFrame :=
  ⟨["GHI", "DNI", "DHI", "WD", "WS"],
   [[Cell.num 1, Cell.num 2, Cell.num 3, Cell.num 90, Cell.num 5]]⟩

/-- Control state selecting `GHI` for the line chart and two columns for
the correlation matrix. -/
def uiFull : UI := ⟨Handling.noAction, false, ["GHI"], ["GHI", "DNI"], 20⟩

/-- Control state choosing the drop-rows strategy. -/
def uiDrop : UI := ⟨Handling.dropRows, false, [], [], 20⟩

/-! ### General lemmas about the embedding -/

theorem getD_map_of_lt {α β : Type} (f : α → β) (l : List α) (i : Nat) (d : β) (d0 : α)
    (h : i < l.length) : (l.map f).getD i d = f (l.getD i d0) := by
  simp [List.getD_eq_getElem?_getD, List.getElem?_eq_getElem, h]

theorem getD_range_map {β : Type} (f : Nat → β) (n i : Nat) (d : β) (h : i < n) :
    ((List.range n).map f).getD i d = f i := by
  rw [getD_map_of_lt f _ i d 0 (by simpa using h)]
  simp [List.getD_eq_getElem?_getD, List.getElem?_range h]

theorem rangeMap_getD {α : Type} (cs : List α) (d : α) :
    (List.range cs.length).map (fun i => cs.getD i d) = cs := by
  apply List.ext_getElem (by simp)
  intro i h1 h2
  simp [List.getD_eq_getElem?_getD, List.getElem?_eq_getElem, h2]

theorem natSum_eq_zero_iff (l : List Nat) : l.sum = 0 ↔ ∀ x ∈ l, x = 0 := by
  induction l with
  | nil => simp
  | cons a l ih => simp [Nat.add_eq_zero, ih]

theorem colCells_length (df : DataFrame) (j : Nat) :
    (df.colCells j).length = df.nrows := by
  simp [DataFrame.colCells, DataFrame.nrows]

theorem colCells_getD (df : DataFrame) (i j : Nat) (h : i < df.nrows) :
    (df.colCells j).getD i Cell.na = df.cell i j := by
  unfold DataFrame.colCells DataFrame.cell
  exact getD_map_of_lt _ _ _ _ [] h

theorem wfB_rows (df : DataFrame) (h : df.wfB = true) :
    ∀ r ∈ df.rows, r.length = df.header.length := by
  intro r hr
  have := List.all_eq_true.mp h r hr
  simpa using this

/-! ### Coercion lemmas -/

theorem toNumeric_coerce_eq (cs : List Cell) :
    toNumeric true cs = .ok (cs.map coerceCell) := by
  induction cs with
  | nil => rfl
  | cons c cs ih =>
    cases c with
    | na => simp [toNumeric, ih, coerceCell, Except.map]
    | num x => simp [toNumeric, ih, coerceCell, Except.map]
    | str s => cases hp : parseNumStr s <;>
        simp [toNumeric, hp, ih, coerceCell, Except.map]

theorem coerceColumnCells_eq (cs : List Cell) :
    coerceColumnCells cs = cs.map coerceCell := by
  simp [coerceColumnCells, toNumeric_coerce_eq]

theorem coerceCell_not_str (c : Cell) : (coerceCell c).isStr = false := by
  cases c with
  | na => rfl
  | num x => rfl
  | str s => cases hp : parseNumStr s <;> simp [coerceCell, hp, Cell.isStr]

theorem coerceObjects_header (df : DataFrame) :
    (df.coerceObjects).header = df.header := rfl

theorem coerceObjects_nrows (df : DataFrame) :
    (df.coerceObjects).nrows = df.nrows := by
  simp [DataFrame.coerceObjects, DataFrame.nrows]

theorem coerceObjects_colCells (df : DataFrame) (j : Nat) (hj : j < df.width) :
    (df.coerceObjects).colCells j =
      if objectCol (df.colCells j) then (df.colCells j).map coerceCell
      else df.colCells j := by
  have hw : j < df.header.length := hj
  have hlen : (if objectCol (df.colCells j) then (df.colCells j).map coerceCell
      else df.colCells j).length = df.rows.length := by
    split <;> simp [colCells_length, DataFrame.nrows]
  apply List.ext_getElem
  · simpa [DataFrame.coerceObjects, DataFrame.colCells] using hlen.symm
  intro i h1 h2
  have hi : i < df.rows.length := by
    simpa [DataFrame.coerceObjects, DataFrame.colCells] using h1
  have step1 : ((df.coerceObjects).colCells j)[i] =
      ((df.coerceObjects).colCells j).getD i Cell.na := by
    simp [List.getD_eq_getElem?_getD, List.getElem?_eq_getElem, h1]
  have step2 : (if objectCol (df.colCells j) then (df.colCells j).map coerceCell
      else df.colCells j)[i] =
      (if objectCol (df.colCells j) then (df.colCells j).map coerceCell
      else df.colCells j).getD i Cell.na := by
    simp [List.getD_eq_getElem?_getD, List.getElem?_eq_getElem, h2]
  rw [step1, step2]
  show ((df.coerceObjects).rows.map (fun r => r.getD j Cell.na)).getD i Cell.na = _
  unfold DataFrame.coerceObjects
  rw [List.map_map]
  rw [getD_range_map _ _ _ _ hi]
  simp only [Function.comp_apply]
  rw [getD_map_of_lt _ _ _ _ [] (by simpa using hw)]
  rw [getD_range_map _ _ _ _ hw]
  simp [coerceColumnCells_eq]

/-! ### Forward-fill lemmas -/

theorem ffillStep_length (acc r : List Cell) :
    (ffillStep acc r).length = min acc.length r.length := by
  simp [ffillStep]

theorem ffillStep_getD (acc r : List Cell) (j : Nat)
    (ha : j < acc.length) (hr : j < r.length) :
    (ffillStep acc r).getD j Cell.na =
      if (r.getD j Cell.na).isNA then acc.getD j Cell.na
      else r.getD j Cell.na := by
  have hz : j < (ffillStep acc r).length := by
    simp [ffillStep_length]; omega
  simp only [List.getD_eq_getElem?_getD, List.getElem?_eq_getElem, hz, ha, hr,
    Option.getD_some]
  simp [ffillStep, List.getElem_zipWith]

theorem ffillRows_length (acc : List Cell) (rs : List (List Cell)) :
    (ffillRows acc rs).length = rs.length := by
  induction rs generalizing acc with
  | nil => rfl
  | cons r rs ih => simp [ffillRows, ih]

theorem ffillRows_col (rs : List (List Cell)) (acc : List Cell) (j : Nat)
    (hw : ∀ r ∈ rs, r.length = acc.length) (hj : j < acc.length) :
    (ffillRows acc rs).map (fun r => r.getD j Cell.na) =
      ffillColAux (acc.getD j Cell.na) (rs.map (fun r => r.getD j Cell.na)) := by
  induction rs generalizing acc with
  | nil => rfl
  | cons r rs ih =>
    have hr : r.length = acc.length := hw r (by simp)
    have hsl : (ffillStep acc r).length = acc.length := by
      simp [ffillStep_length, hr]
    have hstep := ffillStep_getD acc r j hj (hr ▸ hj)
    simp only [ffillRows, List.map_cons, ffillColAux]
    refine List.cons_eq_cons.mpr ⟨hstep, ?_⟩
    rw [ih (ffillStep acc r) (fun r2 h2 => by rw [hw r2 (by simp [h2]), hsl])
      (by omega)]
    rw [hstep]

theorem getLastD_cons {α : Type} (c a : α) (t : List α) :
    ((c :: t).getLast?).getD a = (t.getLast?).getD c := by
  cases t with
  | nil => rfl
  | cons x t2 =>
    obtain ⟨y, hy⟩ := Option.isSome_iff_exists.mp
      (List.getLast?_isSome.mpr (List.cons_ne_nil x t2))
    simp [List.getLast?_cons_cons, hy]

theorem ffillColAux_getD (cs : List Cell) (a : Cell) (i : Nat) (h : i < cs.length) :
    (ffillColAux a cs).getD i Cell.na =
      if (cs.getD i Cell.na).isNA then
        (((cs.take i).filter (fun c => !c.isNA)).getLast?).getD a
      else cs.getD i Cell.na := by
  induction cs generalizing a i with
  | nil => simp at h
  | cons c cs ih =>
    cases i with
    | zero =>
      cases hc : c.isNA <;> simp [ffillColAux, hc]
    | succ i =>
      have h2 : i < cs.length := by simpa using h
      simp only [ffillColAux, List.getD_cons_succ, List.take_succ_cons]
      rw [ih (if c.isNA then a else c) i h2]
      cases hc : c.isNA with
      | true =>
        rw [List.filter_cons_of_neg (by simp [hc])]
        simp [hc]
      | false =>
        rw [List.filter_cons_of_pos (by simp [hc])]
        rw [if_neg (show ¬ (false = true) by simp)]
        by_cases hna : (cs.getD i Cell.na).isNA = true
        · rw [if_pos hna, if_pos hna, getLastD_cons]
        · rw [if_neg hna, if_neg hna]

theorem ffill_header (df : DataFrame) : (df.ffill).header = df.header := rfl

theorem ffill_nrows (df : DataFrame) : (df.ffill).nrows = df.nrows := by
  simp [DataFrame.ffill, DataFrame.nrows, ffillRows_length]

theorem ffill_colCells (df : DataFrame) (h : df.wfB = true) (j : Nat)
    (hj : j < df.width) :
    (df.ffill).colCells j = ffillColAux Cell.na (df.colCells j) := by
  show (ffillRows (List.replicate df.header.length Cell.na) df.rows).map
      (fun r => r.getD j Cell.na) = _
  rw [ffillRows_col df.rows (List.replicate df.header.length Cell.na) j
    (fun r hr => by simp [wfB_rows df h r hr]) (by simpa using hj)]
  congr 1
  simp [List.getD_eq_getElem?_getD, List.getElem?_replicate_of_lt, hj, DataFrame.width] at *

theorem ffill_cell (df : DataFrame) (h : df.wfB = true) (i j : Nat)
    (hi : i < df.nrows) (hj : j < df.width) :
    (df.ffill).cell i j = ffillSpec (df.colCells j) i := by
  have hi2 : i < (df.ffill).nrows := by rw [ffill_nrows]; exact hi
  rw [← colCells_getD (df.ffill) i j hi2, ffill_colCells df h j hj]
  rw [ffillColAux_getD _ _ _ (by simpa [colCells_length] using hi)]
  rfl

/-! ### Dropna lemmas -/

theorem dropna_header (df : DataFrame) : (df.dropna).header = df.header := rfl

theorem dropna_rows_sublist (df : DataFrame) : (df.dropna).rows.Sublist df.rows :=
  List.filter_sublist df.rows

theorem dropna_mem (df : DataFrame) (r : List Cell) :
    r ∈ (df.dropna).rows ↔ r ∈ df.rows ∧ rowHasNA r = false := by
  simp [DataFrame.dropna]

theorem dropna_count_full (df : DataFrame) (r : List Cell) (h : rowHasNA r = false) :
    (df.dropna).rows.count r = df.rows.count r := by
  simp [DataFrame.dropna]
  exact List.count_filter (by simp [h])

theorem dropna_count_na (df : DataFrame) (r : List Cell) (h : rowHasNA r = true) :
    (df.dropna).rows.count r = 0 := by
  rw [List.count_eq_zero]
  intro hmem
  have := ((dropna_mem df r).mp hmem).2
  simp [h] at this

/-! ### Missing-value lemmas -/

theorem missingTotal_eq_zero_iff (df : DataFrame) (h : df.wfB = true) :
    df.missingTotal = 0 ↔ df.hasMissing = false := by
  unfold DataFrame.missingTotal DataFrame.missingSeries DataFrame.hasMissing
  rw [List.map_map, natSum_eq_zero_iff]
  constructor
  · intro hz
    rw [List.any_eq_false]
    intro r hr
    simp only [Bool.not_eq_true, List.any_eq_false, Bool.not_eq_true]
    intro c hcr
    obtain ⟨k, hk, hkc⟩ := List.mem_iff_getElem.mp hcr
    have hkw : k < df.header.length := by rw [← wfB_rows df h r hr]; exact hk
    have hmem : (k, df.header.get ⟨k, hkw⟩) ∈ df.header.enum :=
      List.mem_enum_iff_getElem?.mpr (by simp)
    have hz2 := hz _ (List.mem_map_of_mem _ hmem)
    simp only [Function.comp_apply, countNA] at hz2
    have hcol : c ∈ df.colCells k := by
      unfold DataFrame.colCells
      refine List.mem_map.mpr ⟨r, hr, ?_⟩
      simp [List.getD_eq_getElem?_getD, List.getElem?_eq_getElem, hk, hkc]
    have := List.countP_eq_zero.mp hz2 c hcol
    simpa using this
  · intro hz x hx
    obtain ⟨p, hp, hpx⟩ := List.mem_map.mp hx
    subst hpx
    simp only [Function.comp_apply, countNA]
    rw [List.countP_eq_zero]
    intro c hc
    obtain ⟨r, hr, hrc⟩ := List.mem_map.mp hc
    subst hrc
    have hrlen : r.length = df.header.length := wfB_rows df h r hr
    have hlt : p.1 < r.length := by
      rw [hrlen]; exact List.fst_lt_of_mem_enum hp
    have hmemr : r.getD p.1 Cell.na ∈ r := by
      rw [List.getD_eq_getElem?_getD, List.getElem?_eq_getElem hlt]
      exact List.getElem_mem hlt
    have hno : r.any Cell.isNA = false := by
      have := List.any_eq_false.mp hz r hr
      simpa using this
    have := List.any_eq_false.mp hno _ hmemr
    simpa using this

theorem mem_missingReport (df : DataFrame) (n : String) (c : Nat) :
    (n, c) ∈ df.missingReport ↔
      ∃ j, j < df.width ∧ df.header.getD j "" = n ∧
        countNA (df.colCells j) = c ∧ 0 < c := by
  unfold DataFrame.missingReport DataFrame.missingSeries
  rw [List.mem_filter]
  constructor
  · rintro ⟨hmem, hpos⟩
    obtain ⟨p, hp, hpe⟩ := List.mem_map.mp hmem
    have hj : p.1 < df.header.length := List.fst_lt_of_mem_enum hp
    have he : df.header[p.1]? = some p.2 := List.mem_enum_iff_getElem?.mp hp
    have hn : p.2 = n := congrArg Prod.fst hpe
    have hc : countNA (df.colCells p.1) = c := congrArg Prod.snd hpe
    refine ⟨p.1, hj, ?_, hc, by simpa using hpos⟩
    rw [List.getD_eq_getElem?_getD, he]
    exact hn
  · rintro ⟨j, hj, hn, hc, hpos⟩
    have hjh : j < df.header.length := hj
    have hmem : (j, df.header.get ⟨j, hjh⟩) ∈ df.header.enum :=
      List.mem_enum_iff_getElem?.mpr (by simp)
    refine ⟨List.mem_map.mpr ⟨(j, df.header.get ⟨j, hjh⟩), hmem, ?_⟩,
      by simpa using hpos⟩
    have hh : df.header.get ⟨j, hjh⟩ = n := by
      rw [← hn]
      simp [List.getD_eq_getElem?_getD, List.getElem?_eq_getElem, hjh]
    show (df.header.get ⟨j, hjh⟩, countNA (df.colCells j)) = (n, c)
    rw [hh, hc]

/-! ### Widget and EDA lemmas -/

theorem multiselect_ok_sub (options deflt chosen sel : List String)
    (h : multiselect options deflt chosen = .ok sel) : sel ⊆ options := by
  unfold multiselect at h
  split at h
  · cases h
    intro x hx
    have hx2 := (List.mem_filter.mp hx).2
    simpa using hx2
  · cases h

theorem multiselect_self_ok (options chosen : List String) :
    multiselect options options chosen =
      .ok (chosen.filter (fun c => options.contains c)) := by
  unfold multiselect
  rw [if_pos]
  rw [List.all_eq_true]
  intro d hd
  simpa using hd

theorem numericCols_subset (df : DataFrame) : df.numericCols ⊆ df.header := by
  intro x hx
  obtain ⟨p, hp, hpx⟩ := List.mem_map.mp hx
  subst hpx
  exact List.snd_mem_of_mem_enum (List.mem_filter.mp hp).1

theorem lineChartOuts_refCols (df : DataFrame) (sel : List String)
    (hsub : sel ⊆ df.header)
    (o : Out) (ho : o ∈ lineChartOuts sel) : refCols o ⊆ df.header := by
  unfold lineChartOuts at ho
  split at ho <;> simp at ho <;> subst ho <;> simp [refCols, hsub]

theorem corrOuts_refCols (df : DataFrame) (csel : List String)
    (hsub : csel ⊆ df.header)
    (o : Out) (ho : o ∈ corrOuts csel) : refCols o ⊆ df.header := by
  unfold corrOuts at ho
  split at ho <;> simp at ho <;> subst ho <;> simp [refCols, hsub]

theorem histSection_refCols (df : DataFrame) (b : Nat)
    (o : Out) (ho : o ∈ histSection df b) : refCols o ⊆ df.header := by
  unfold histSection at ho
  split at ho
  · rename_i hghi
    simp only [List.mem_cons, List.not_mem_nil, or_false] at ho
    rcases ho with h | h | h <;> subst h <;> simp [refCols, hghi]
  · simp at ho
    subst ho
    simp [refCols]

theorem windSection_refCols (df : DataFrame)
    (o : Out) (ho : o ∈ windSection df) : refCols o ⊆ df.header := by
  unfold windSection at ho
  split at ho
  · rename_i hw
    simp only [List.mem_cons, List.not_mem_nil, or_false] at ho
    rcases ho with h | h <;> subst h <;>
      simp [refCols, hw.1, hw.2, List.subset_def]
  · simp at ho
    subst ho
    simp [refCols]

/-! ### Claim theorems -/

/-- C9: the `except ValueError` branch of the coercion loop (lines 63-65)
is unreachable.  `pd.to_numeric(errors='coerce')` never raises, the
column always takes the try-branch result, the `astype(str)` fallback
never runs, every unparseable entry becomes `NaN`, and the coerced column
is numeric (string-free). -/
theorem c9_coerce_never_raises (cs : List Cell) :
    (∀ e : Unit, toNumeric true cs ≠ .error e) ∧
    toNumeric true cs = .ok (cs.map coerceCell) ∧
    coerceColumnCells cs = cs.map coerceCell ∧
    (∀ s : String, parseNumStr s = none → coerceCell (Cell.str s) = Cell.na) ∧
    objectCol (cs.map coerceCell) = false := by
  refine ⟨?_, toNumeric_coerce_eq cs, coerceColumnCells_eq cs, ?_, ?_⟩
  · intro e he
    rw [toNumeric_coerce_eq] at he
    cases he
  · intro s hs
    simp [coerceCell, hs]
  · unfold objectCol
    rw [List.any_eq_false]
    intro c hc
    obtain ⟨c0, hc0, rfl⟩ := List.mem_map.mp hc
    simp [coerceCell_not_str]

/-- C9 witness: coercing the column `["abc", "7"]` takes the try branch
and yields `[NaN, 7]`. -/
theorem c9_witness :
    coerceColumnCells [Cell.str "abc", Cell.str "7"] = [Cell.na, Cell.num 7] ∧
    coerceCell (Cell.str "abc") = Cell.na := by
  constructor
  · rw [(c9_coerce_never_raises [Cell.str "abc", Cell.str "7"]).2.2.1]
    decide
  · exact (c9_coerce_never_raises [Cell.str "abc"]).2.2.2.1 "abc" (by decide)

/-- C2 counterexample: the column of `dfObj` is object-dtype and its
entry `"abc"` cannot be parsed, yet after coercion the frame holds `NaN`
(a numeric, string-free column), not strings — the `astype(str)` fallback
did not run. -/
theorem c2_counterexample :
    objectCol (dfObj.colCells 0) = true ∧
    (dfObj.colCells 0).all parseableCell = false ∧
    (dfObj.coerceObjects).rows = [[Cell.na]] ∧
    objectCol ((dfObj.coerceObjects).colCells 0) = false := by decide

/-- C2 (amended): for every object-dtype column, the coercion step applies
`pd.to_numeric(errors='coerce')`: the column becomes `map coerceCell`,
ends up numeric (string-free), and every unparseable entry becomes `NaN`
rather than a string. -/
theorem c2_amended_coerce_to_nan (df : DataFrame) (j : Nat) (hj : j < df.width)
    (hobj : objectCol (df.colCells j) = true) :
    (df.coerceObjects).colCells j = (df.colCells j).map coerceCell ∧
    objectCol ((df.coerceObjects).colCells j) = false ∧
    (∀ i, i < df.nrows → parseableCell (df.cell i j) = false →
      (df.coerceObjects).cell i j = Cell.na) := by
  have hcol : (df.coerceObjects).colCells j = (df.colCells j).map coerceCell := by
    rw [coerceObjects_colCells df j hj, if_pos hobj]
  refine ⟨hcol, ?_, ?_⟩
  · rw [hcol]
    exact (c9_coerce_never_raises (df.colCells j)).2.2.2.2
  · intro i hi hp
    have hi2 : i < (df.coerceObjects).nrows := by
      rw [coerceObjects_nrows]; exact hi
    rw [← colCells_getD (df.coerceObjects) i j hi2, hcol]
    rw [getD_map_of_lt _ _ _ _ Cell.na (by simpa [colCells_length] using hi)]
    rw [colCells_getD df i j hi]
    cases hc : df.cell i j with
    | na => rfl
    | num x => rw [hc] at hp; simp [parseableCell] at hp
    | str s =>
      rw [hc] at hp
      simp only [parseableCell, Option.isSome] at hp
      cases hps : parseNumStr s with
      | some q => rw [hps] at hp; simp at hp
      | none => simp [coerceCell, hps]

/-- C2 amended witness at `dfObj`. -/
theorem c2_amended_witness :
    (dfObj.coerceObjects).colCells 0 = [Cell.na] ∧
    (dfObj.coerceObjects).cell 0 0 = Cell.na := by
  have hc := c2_amended_coerce_to_nan dfObj 0 (by decide) (by decide)
  exact ⟨by rw [hc.1]; decide, hc.2.2 0 (by decide) (by decide)⟩

/-- C1: the claim fails on the code.  Uploading a dataframe without a
`GHI` column makes the line-chart multiselect raise
`StreamlitAPIException` (its hardcoded default `"GHI"` is not among the
numeric-column options, line 84), so the run aborts before the histogram
guard can emit its warning: the render pipeline crashes instead of
warning. -/
theorem c1_missing_ghi_crashes :
    ("GHI" ∉ dfNoGHI.header) ∧
    runApp dfNoGHI uiPlain = .error SErr.multiselectDefault := by decide

/-- C10: the cleaning pipeline does not guarantee a missing-value-free
result.  `dfMix` has a missing value, dropping rows removes it, yet the
coercion that runs afterwards turns the surviving unparseable `"abc"`
into `NaN`, so the dataframe handed to the charts has a missing value
again. -/
theorem c10_drop_then_coerce_reintroduces_nan :
    dfMix.hasMissing = true ∧
    (applyHandling Handling.dropRows dfMix).hasMissing = false ∧
    ((applyHandling Handling.dropRows dfMix).coerceObjects).hasMissing = true ∧
    (cleaningSection dfMix uiDrop).1.hasMissing = true := by decide

/-- C3: every chart element the EDA section renders references only
columns present in the dataframe: line-chart and heatmap selections come
from the numeric columns, and the histogram and wind scatter render only
behind their presence guards. -/
theorem c3_charts_reference_existing_cols (df : DataFrame) (ui : UI) (o : Out)
    (ho : o ∈ edaOutsOf df ui) : refCols o ⊆ df.header := by
  unfold edaOutsOf at ho
  cases h1 : edaSection df ui with
  | error e => rw [h1] at ho; simp at ho
  | ok outs =>
    rw [h1] at ho
    unfold edaSection at h1
    cases h2 : multiselect df.numericCols ["GHI", "DNI", "DHI"] ui.lineSel with
    | error e => rw [h2] at h1; cases h1
    | ok sel =>
      rw [h2] at h1
      cases h3 : multiselect df.numericCols df.numericCols ui.corrSel with
      | error e => rw [h3] at h1; cases h1
      | ok csel =>
        rw [h3] at h1
        injection h1 with h1
        subst h1
        have hsel : sel ⊆ df.header :=
          (multiselect_ok_sub _ _ _ _ h2).trans (numericCols_subset df)
        have hcsel : csel ⊆ df.header :=
          (multiselect_ok_sub _ _ _ _ h3).trans (numericCols_subset df)
        simp only [List.mem_append, List.mem_cons, List.not_mem_nil, or_false] at ho
        rcases ho with (((((h | h) | h) | h) | h) | h) | h
        · subst h; simp [refCols]
        · subst h; simp [refCols]
        · exact lineChartOuts_refCols df sel hsel o h
        · exact histSection_refCols df ui.bins o h
        · subst h; simp [refCols]
        · exact corrOuts_refCols df csel hcsel o h
        · exact windSection_refCols df o h

/-- C3 witness: a rendered line chart on `dfFull` references only
existing columns. -/
theorem c3_witness :
    Out.lineChart ["GHI"] ∈ edaOutsOf dfFull uiFull ∧
    refCols (Out.lineChart ["GHI"]) ⊆ dfFull.header :=
  ⟨by decide, c3_charts_reference_existing_cols dfFull uiFull _ (by decide)⟩

/-- C4 counterexample: in `dfLead` the cell at row 0 is missing and its
column has no preceding non-missing value; Forward fill leaves the cell
missing, so it is not replaced by "the most recent preceding non-missing
value" — no such value exists, refuting the claim as stated. -/
theorem c4_counterexample :
    (dfLead.cell 0 0).isNA = true ∧
    ((dfLead.ffill).cell 0 0).isNA = true ∧
    (dfLead.colCells 0).take 0 = [] := by decide

/-- C4 (amended): drop removes exactly the rows containing a missing
value, keeping every fully-populated row unchanged and in order; Forward
fill leaves non-missing cells unchanged and replaces each missing cell
with the most recent preceding non-missing value in its column when one
exists, leaving it missing otherwise (`ffillSpec`). -/
theorem c4_canned_strategies (df : DataFrame) (h : df.wfB = true) :
    ((df.dropna).header = df.header ∧
     (df.dropna).rows.Sublist df.rows ∧
     (∀ r, rowHasNA r = false → (df.dropna).rows.count r = df.rows.count r) ∧
     (∀ r, rowHasNA r = true → (df.dropna).rows.count r = 0)) ∧
    ((df.ffill).header = df.header ∧
     (df.ffill).nrows = df.nrows ∧
     ∀ i j, i < df.nrows → j < df.width →
       (df.ffill).cell i j = ffillSpec (df.colCells j) i) :=
  ⟨⟨rfl, dropna_rows_sublist df, fun r hr => dropna_count_full df r hr,
    fun r hr => dropna_count_na df r hr⟩,
   rfl, ffill_nrows df, fun i j hi hj => ffill_cell df h i j hi hj⟩

/-- C4 witness: on `dfMix`, the fully-populated row survives `dropna`
with its multiplicity, and on `dfLead` the missing cell at row 2 takes
the preceding value. -/
theorem c4_witness :
    (dfMix.dropna).rows.count [Cell.num 1, Cell.str "abc"] =
      dfMix.rows.count [Cell.num 1, Cell.str "abc"] ∧
    (dfLead.ffill).cell 2 0 = ffillSpec (dfLead.colCells 0) 2 ∧
    ffillSpec (dfLead.colCells 0) 2 = Cell.num 1 :=
  ⟨(c4_canned_strategies dfMix (by decide)).1.2.2.1 _ (by decide),
   (c4_canned_strategies dfLead (by decide)).2.2.2 2 0 (by decide) (by decide),
   by decide⟩

/-- C7: frame conditions of the in-place operations.  Forward fill keeps
the header, the row count and every non-missing cell; drop keeps the
header and the surviving rows verbatim in order; coercion keeps the
header, the row count and every non-object column. -/
theorem c7_frame_conditions (df : DataFrame) (h : df.wfB = true) :
    ((df.ffill).header = df.header ∧ (df.ffill).nrows = df.nrows ∧
     ∀ i j, i < df.nrows → j < df.width → (df.cell i j).isNA = false →
       (df.ffill).cell i j = df.cell i j) ∧
    ((df.dropna).header = df.header ∧ (df.dropna).rows.Sublist df.rows) ∧
    ((df.coerceObjects).header = df.header ∧
     (df.coerceObjects).nrows = df.nrows ∧
     ∀ j, j < df.width → objectCol (df.colCells j) = false →
       (df.coerceObjects).colCells j = df.colCells j) := by
  refine ⟨⟨rfl, ffill_nrows df, ?_⟩, ⟨rfl, dropna_rows_sublist df⟩,
          ⟨rfl, coerceObjects_nrows df, ?_⟩⟩
  · intro i j hi hj hna
    rw [ffill_cell df h i j hi hj]
    unfold ffillSpec
    rw [colCells_getD df i j hi, hna]
    simp
  · intro j hj hobj
    rw [coerceObjects_colCells df j hj, if_neg (by simp [hobj])]

/-- C7 witness on `dfMix`: the present cell survives `ffill` unchanged
and the non-object numeric column survives coercion unchanged. -/
theorem c7_witness :
    (dfMix.ffill).cell 0 0 = dfMix.cell 0 0 ∧
    (dfMix.coerceObjects).colCells 0 = dfMix.colCells 0 := by
  have hc := c7_frame_conditions dfMix (by decide)
  exact ⟨hc.1.2.2 0 0 (by decide) (by decide) (by decide),
         hc.2.2.2.2 0 (by decide) (by decide)⟩

/-- C8: with both `WD` and `WS` present the wind section renders exactly
the polar scatter over one (direction, speed) pair per row — pair `i`
holds row `i`'s `WD` and `WS` cells — and the plotted angle of a numeric
direction value is its degree value times `π / 180` (`np.deg2rad`). -/
theorem c8_wind_polar_scatter (df : DataFrame)
    (hwd : "WD" ∈ df.header) (hws : "WS" ∈ df.header) :
    windSection df =
      [Out.subheader "Wind Analysis",
       Out.windScatter (List.zip (df.colByName "WD") (df.colByName "WS"))] ∧
    (List.zip (df.colByName "WD") (df.colByName "WS")).length = df.nrows ∧
    (∀ i, i < df.nrows →
      (List.zip (df.colByName "WD") (df.colByName "WS")).getD i (Cell.na, Cell.na) =
        (df.cell i (df.header.indexOf "WD"), df.cell i (df.header.indexOf "WS"))) ∧
    (∀ x : ℚ, deg2rad x = (x : ℝ) * Real.pi / 180) := by
  refine ⟨?_, ?_, ?_, fun x => rfl⟩
  · unfold windSection
    rw [if_pos ⟨hwd, hws⟩]
  · simp [DataFrame.colByName, colCells_length]
  · intro i hi
    have h1 : i < (df.colByName "WD").length := by
      simpa [DataFrame.colByName, colCells_length] using hi
    have h2 : i < (df.colByName "WS").length := by
      simpa [DataFrame.colByName, colCells_length] using hi
    have hz : i < (List.zip (df.colByName "WD") (df.colByName "WS")).length := by
      simp [List.length_zip]; omega
    rw [List.getD_eq_getElem?_getD, List.getElem?_eq_getElem hz, Option.getD_some]
    rw [List.getElem_zip]
    rw [show (df.colByName "WD")[i] =
        (df.colByName "WD").getD i Cell.na from by
      simp [List.getD_eq_getElem?_getD, List.getElem?_eq_getElem, h1]]
    rw [show (df.colByName "WS")[i] =
        (df.colByName "WS").getD i Cell.na from by
      simp [List.getD_eq_getElem?_getD, List.getElem?_eq_getElem, h2]]
    rw [show (df.colByName "WD").getD i Cell.na =
        df.cell i (df.header.indexOf "WD") from colCells_getD df i _ hi]
    rw [show (df.colByName "WS").getD i Cell.na =
        df.cell i (df.header.indexOf "WS") from colCells_getD df i _ hi]

/-- C8 witness at `dfFull`: one pair per row with the raw degree/speed
cells. -/
theorem c8_witness :
    windSection dfFull =
      [Out.subheader "Wind Analysis",
       Out.windScatter [(Cell.num 90, Cell.num 5)]] := by
  have hc := c8_wind_polar_scatter dfFull (by decide) (by decide)
  rw [hc.1]
  decide

/-- C5: the missing-value prompt appears iff the frame has a missing
value.  The gate `missing_values.sum() > 0` holds iff some cell is
missing; with no missing values the cleaning section emits the
no-missing message and neither the per-column report nor the radio
control; with a missing value it emits the radio control and the report,
and the report lists exactly the columns with a positive missing count. -/
theorem c5_missing_prompt_iff (df : DataFrame) (ui : UI) (h : df.wfB = true) :
    (0 < df.missingTotal ↔ df.hasMissing = true) ∧
    (df.hasMissing = false →
      Out.writeText "No missing values detected!" ∈ (cleaningSection df ui).2 ∧
      Out.radioShown ∉ (cleaningSection df ui).2 ∧
      (∀ rep, Out.writeMissing rep ∉ (cleaningSection df ui).2)) ∧
    (df.hasMissing = true →
      Out.radioShown ∈ (cleaningSection df ui).2 ∧
      Out.writeMissing df.missingReport ∈ (cleaningSection df ui).2 ∧
      Out.writeText "No missing values detected!" ∉ (cleaningSection df ui).2) ∧
    (∀ n c, (n, c) ∈ df.missingReport ↔
      ∃ j, j < df.width ∧ df.header.getD j "" = n ∧
        countNA (df.colCells j) = c ∧ 0 < c) := by
  have hgate := missingTotal_eq_zero_iff df h
  have hiff : 0 < df.missingTotal ↔ df.hasMissing = true := by
    constructor
    · intro hpos
      cases hm : df.hasMissing with
      | true => rfl
      | false =>
        have h0 := hgate.mpr hm
        omega
    · intro htrue
      rcases Nat.eq_zero_or_pos df.missingTotal with h0 | hpos
      · rw [hgate.mp h0] at htrue; cases htrue
      · exact hpos
  have hout2 : (cleaningSection df ui).2 =
      overviewOuts df ++ missingOuts df ui ++ dtypeOuts (handledDf df ui) ++
      previewOuts ((handledDf df ui).coerceObjects) ui := rfl
  refine ⟨hiff, ?_, ?_, fun n c => mem_missingReport df n c⟩
  · intro hm
    have h0 : df.missingTotal = 0 := hgate.mpr hm
    have hmouts : missingOuts df ui = [Out.writeText "No missing values detected!"] := by
      unfold missingOuts
      rw [if_neg (by omega)]
    refine ⟨?_, ?_, ?_⟩
    · rw [hout2, hmouts]
      simp
    · rw [hout2, hmouts]
      unfold overviewOuts dtypeOuts previewOuts
      split <;> simp
    · intro rep
      rw [hout2, hmouts]
      unfold overviewOuts dtypeOuts previewOuts
      split <;> simp
  · intro hm
    have hpos : 0 < df.missingTotal := hiff.mpr hm
    have hmouts : missingOuts df ui =
        [Out.writeText "Missing values in each column:",
         Out.writeMissing df.missingReport, Out.radioShown] ++
        (match ui.handling with
         | .noAction => []
         | .forwardFill => [Out.success "Missing values filled using forward fill!"]
         | .dropRows => [Out.success "Rows with missing values have been dropped!"]) := by
      unfold missingOuts
      rw [if_pos hpos]
    refine ⟨?_, ?_, ?_⟩
    · rw [hout2, hmouts]
      simp
    · rw [hout2, hmouts]
      simp
    · have hs1 : ("No missing values detected!" : String) ≠
          "Missing values in each column:" := by decide
      have hs2 : ("No missing values detected!" : String) ≠
          "### Cleaned Data Preview" := by decide
      rw [hout2, hmouts]
      unfold overviewOuts dtypeOuts previewOuts
      cases ui.handling <;> split <;> simp [hs1, hs2]

/-- C5 witness at `dfMix`, which has a missing value. -/
theorem c5_witness :
    Out.radioShown ∈ (cleaningSection dfMix uiPlain).2 ∧
    Out.writeMissing dfMix.missingReport ∈ (cleaningSection dfMix uiPlain).2 := by
  have hc := c5_missing_prompt_iff dfMix uiPlain (by decide)
  have ht := hc.2.2.1 (by decide)
  exact ⟨ht.1, ht.2.1⟩

/-- C6: the script's steps run in the source order — raw preview and
overview of the uploaded frame, the missing-value block, the chosen
strategy applied to the pre-coercion frame (`handledDf`), the dtype
report on that pre-coercion result, coercion, the optional preview of
the coerced frame, then the EDA charts on the post-coercion frame. -/
theorem c6_pipeline_order (df : DataFrame) (ui : UI)
    (h : (runApp df ui).isOk = true) :
    runApp df ui = .ok
      (Out.header "Data Understanding and Cleaning" ::
       (overviewOuts df ++ missingOuts df ui ++
        dtypeOuts (handledDf df ui) ++
        previewOuts ((handledDf df ui).coerceObjects) ui ++
        edaOutsOf ((handledDf df ui).coerceObjects) ui)) := by
  have hr : runApp df ui =
      match edaSection ((handledDf df ui).coerceObjects) ui with
      | .error e => .error e
      | .ok eouts => .ok (Out.header "Data Understanding and Cleaning" ::
          (overviewOuts df ++ missingOuts df ui ++ dtypeOuts (handledDf df ui) ++
           previewOuts ((handledDf df ui).coerceObjects) ui ++ eouts)) := rfl
  cases he : edaSection ((handledDf df ui).coerceObjects) ui with
  | error e =>
    rw [hr, he] at h
    simp [Except.isOk, Except.toBool] at h
  | ok eouts =>
    rw [hr, he]
    unfold edaOutsOf
    rw [he]

/-- C6 witness at `dfFull`. -/
theorem c6_witness :
    runApp dfFull uiFull = .ok
      (Out.header "Data Understanding and Cleaning" ::
       (overviewOuts dfFull ++ missingOuts dfFull uiFull ++
        dtypeOuts (handledDf dfFull uiFull) ++
        previewOuts ((handledDf dfFull uiFull).coerceObjects) uiFull ++
        edaOutsOf ((handledDf dfFull uiFull).coerceObjects) uiFull)) :=
  c6_pipeline_order dfFull uiFull (by decide)

end SolarFarm
